import Mathlib

/-
Verification development for the Cloudinary-to-S3 migration scripts.
The JavaScript sources are shallowly embedded: each definition below is a
direct translation of a function (or a code path) of migrate.js,
selective-migrate.js or verify.js; external effects (S3 headObject and
upload, the HTTP download, the local staging file) are modelled by explicit
result values and environments.
-/

namespace CloudinaryMigrate

/-- Truthiness of an optional JavaScript string value: undefined/null and
the empty string are falsy, every other string is truthy. -/
def jsTruthyStr : Option String → Bool
  | none => false
  | some s => !s.isEmpty

/-- Truthiness of an optional JavaScript number holding a byte count:
undefined/null and 0 are falsy. -/
def jsTruthyNat : Option Nat → Bool
  | none => false
  | some n => n != 0

/-- The fields of a Cloudinary resource object that the scripts read.
Optional fields model fields the API may omit. -/
structure Resource where
  public_id : String
  format : String
  bytes : Option Nat
  folder : Option String
  secure_url : Option String
  url : Option String
deriving DecidableEq, Repr

/-- The S3 key computed by CloudinaryToS3Migrator.migrateAsset:
s3Key = "cloudinary/" + public_id + "." + format. -/
def migrationS3Key (publicId fmt : String) : String :=
  "cloudinary/" ++ publicId ++ "." ++ fmt

/-- The S3 key computed by MigrationVerifier.verifyAsset:
s3Key = folder ? folder + "/" + public_id + "." + format
              : public_id + "." + format. -/
def verifyS3Key (folder : Option String) (publicId fmt : String) : String :=
  if jsTruthyStr folder then folder.getD "" ++ "/" ++ publicId ++ "." ++ fmt
  else publicId ++ "." ++ fmt

/-- publicId.replace of every slash by an underscore, as in
CloudinaryToS3Migrator.downloadAsset. -/
def replaceSlashes (s : String) : String :=
  ⟨s.data.map (fun c => if c = '/' then '_' else c)⟩

/-- The staging file name of CloudinaryToS3Migrator.downloadAsset:
fileName = publicId with slashes replaced by underscores, then "." + format. -/
def localFileName (publicId fmt : String) : String :=
  replaceSlashes publicId ++ "." ++ fmt

/-- Result of one S3 headObject probe, as the scripts distinguish them:
a successful metadata response (carrying ContentLength), the NotFound
error code, or any other error. -/
inductive HeadResult where
  | success (contentLength : Nat)
  | notFound
  | otherError (message : String)
deriving DecidableEq, Repr

/-- CloudinaryToS3Migrator.checkS3FileExists: a successful probe returns
true; the NotFound error returns false; any other error logs a warning
(returned here as the second component) and returns false. The function
is total: the JavaScript method never rethrows. -/
def checkS3FileExists (probe : HeadResult) : Bool × List String :=
  match probe with
  | .success _ => (true, [])
  | .notFound => (false, [])
  | .otherError message => (false, [message])

/-- The overwrite policy of CloudinaryToS3Migrator: skipExisting defaults
to true, forceOverwrite defaults to false. -/
structure Policy where
  skipExisting : Bool
  forceOverwrite : Bool
deriving DecidableEq, Repr

/-- The per-asset transfer outcome as processBatch distinguishes it:
migrateAsset resolves with the string migrated or skipped, or rejects
(counted as failed). -/
inductive Outcome where
  | migrated
  | skipped (reason : String)
  | failed (message : String)
deriving DecidableEq, Repr

/-- Result of one downloadAsset invocation, distinguishing the exit paths
of the JavaScript function: the writer finish event resolves with a fully
staged file; an axios rejection (network error, timeout) happens before
fs.createWriteStream runs, so no staging file exists; a writer stream
error rejects after the file was created, leaving a partial staging file
on disk. -/
inductive DownloadResult where
  | ok
  | failedBeforeFile (message : String)
  | failedMidWrite (message : String)
deriving DecidableEq, Repr

/-- The external world a Transfer Worker invocation sees: the result of an
S3 headObject on a key, how the HTTP download of a URL ends, and whether
the S3 upload to a key succeeds. -/
structure WorkerEnv where
  head : String → HeadResult
  download : String → DownloadResult
  uploadOk : String → Bool

/-- Observable result of one migrateAsset invocation: the outcome, whether
checkS3FileExists was called, whether the download was attempted and
completed, whether the S3 write succeeded, and which staging file (if any)
remains on disk when the invocation ends. -/
structure WorkerResult where
  outcome : Outcome
  oracleConsulted : Bool
  fetchAttempted : Bool
  downloaded : Bool
  persisted : Bool
  stagingLeft : Option String
deriving DecidableEq, Repr

/-- The download URL selection of migrateAsset:
cloudinaryUrl = resource.secure_url or else resource.url. -/
def deliveryUrl (r : Resource) : Option String :=
  if jsTruthyStr r.secure_url then r.secure_url else r.url

/-- The fetch-persist-cleanup tail of migrateAsset, entered after the skip
check. A missing URL throws before any download; an axios rejection
leaves no staging file; a writer stream error leaves a partial staging
file; a failed upload throws after the file was fully staged and before
fs.unlinkSync, leaving the staging file in place; on success the file is
unlinked. -/
def transferSteps (env : WorkerEnv) (r : Resource) (s3Key : String)
    (consulted : Bool) : WorkerResult :=
  if jsTruthyStr (deliveryUrl r) then
    match env.download ((deliveryUrl r).getD "") with
    | .ok =>
        if env.uploadOk s3Key then
          { outcome := .migrated, oracleConsulted := consulted,
            fetchAttempted := true, downloaded := true, persisted := true,
            stagingLeft := none }
        else
          { outcome := .failed "store write error", oracleConsulted := consulted,
            fetchAttempted := true, downloaded := true, persisted := false,
            stagingLeft := some (localFileName r.public_id r.format) }
    | .failedBeforeFile message =>
        { outcome := .failed message, oracleConsulted := consulted,
          fetchAttempted := true, downloaded := false, persisted := false,
          stagingLeft := none }
    | .failedMidWrite message =>
        { outcome := .failed message, oracleConsulted := consulted,
          fetchAttempted := true, downloaded := false, persisted := false,
          stagingLeft := some (localFileName r.public_id r.format) }
  else
    { outcome := .failed "No downloadable URL found", oracleConsulted := consulted,
      fetchAttempted := false, downloaded := false, persisted := false,
      stagingLeft := none }

/-- CloudinaryToS3Migrator.migrateAsset: compute the S3 key; when
skipExisting and not forceOverwrite, consult checkS3FileExists and skip
when it returns true; otherwise run the fetch-persist-cleanup pipeline. -/
def migrateAsset (env : WorkerEnv) (p : Policy) (r : Resource) : WorkerResult :=
  let s3Key := migrationS3Key r.public_id r.format
  if p.skipExisting && !p.forceOverwrite then
    if (checkS3FileExists (env.head s3Key)).1 then
      { outcome := .skipped "already_exists", oracleConsulted := true,
        fetchAttempted := false, downloaded := false, persisted := false,
        stagingLeft := none }
    else transferSteps env r s3Key true
  else transferSteps env r s3Key false

/-- The run-level counters of CloudinaryToS3Migrator. -/
structure Counts where
  migratedCount : Nat
  skippedCount : Nat
  failedCount : Nat
  totalCount : Nat
deriving DecidableEq, Repr

/-- The per-outcome counter increment of processBatch: a resolved migrated
increments migratedCount, a resolved skipped increments skippedCount, a
rejection increments failedCount. -/
def tallyOutcome (c : Counts) (o : Outcome) : Counts :=
  match o with
  | .migrated => { c with migratedCount := c.migratedCount + 1 }
  | .skipped _ => { c with skippedCount := c.skippedCount + 1 }
  | .failed _ => { c with failedCount := c.failedCount + 1 }

/-- CloudinaryToS3Migrator.processBatch: every resource of the batch is run
through migrateAsset and its outcome increments exactly one counter.
Aggregation is commutative, so the concurrent original is modelled by a
left fold. -/
def processBatch (env : WorkerEnv) (p : Policy) (c : Counts)
    (rs : List Resource) : Counts :=
  rs.foldl (fun acc r => tallyOutcome acc (migrateAsset env p r).outcome) c

/-- The counters at the start of a run. -/
def initialCounts : Counts :=
  { migratedCount := 0, skippedCount := 0, failedCount := 0, totalCount := 0 }

/-- The batch loop of CloudinaryToS3Migrator.migrate from an arbitrary
counter state: for each fetched page, totalCount grows by the page length
and the page is processed. A run that ends early on an enumeration error
simply folds over the prefix of pages fetched before the error. -/
def runMigrationFrom (env : WorkerEnv) (p : Policy) (c : Counts)
    (batches : List (List Resource)) : Counts :=
  batches.foldl
    (fun acc batch =>
      processBatch env p
        { acc with totalCount := acc.totalCount + batch.length } batch)
    c

/-- CloudinaryToS3Migrator.migrate, starting from zero counters. -/
def runMigration (env : WorkerEnv) (p : Policy)
    (batches : List (List Resource)) : Counts :=
  runMigrationFrom env p initialCounts batches

/-- One response page of the Cloudinary resources API: the resource list
and the optional next_cursor token. -/
structure CatalogPage where
  resources : List Resource
  next_cursor : Option String
deriving Repr

/-- The while loop of CloudinaryToS3Migrator.migrate instrumented to count
cloudinary.api.resources calls: the responses the stub will return are
consumed in order, and the loop continues exactly when the current
response carries a truthy next_cursor. -/
def paginationCalls : List CatalogPage → Nat
  | [] => 0
  | page :: rest =>
      1 + (if jsTruthyStr page.next_cursor then paginationCalls rest else 0)

/-- The batching loop of SelectiveMigrator.migrateByPublicIds:
for (i = 0; i < n; i += 100) batches.push(publicIds.slice(i, i + 100)). -/
def chunk100 {α : Type} : List α → List (List α)
  | [] => []
  | x :: xs => (x :: xs).take 100 :: chunk100 ((x :: xs).drop 100)
termination_by l => l.length
decreasing_by
  simp [List.length_drop]
  omega

/-- The for-of loop of migrateByPublicIds issues one
cloudinary.api.resources_by_ids call per batch; this counts those calls. -/
def lookupCalls (ids : List String) : Nat :=
  (chunk100 ids).foldl (fun n _ => n + 1) 0

/-- One entry of MigrationVerifier.missingAssets. -/
structure MissingAssetRec where
  public_id : String
  format : String
  expected_s3_key : String
deriving DecidableEq, Repr

/-- One entry of MigrationVerifier.sizeMismatches. -/
structure SizeMismatchRec where
  public_id : String
  cloudinary_size : Nat
  s3_size : Nat
  s3_key : String
deriving DecidableEq, Repr

/-- The mutable state of a MigrationVerifier. -/
structure VerifyState where
  verified : Nat
  missing : Nat
  missingAssets : List MissingAssetRec
  sizeMismatches : List SizeMismatchRec
deriving DecidableEq, Repr

/-- The verifier state at construction. -/
def initVerifyState : VerifyState :=
  { verified := 0, missing := 0, missingAssets := [], sizeMismatches := [] }

/-- MigrationVerifier.verifyAsset: probe the destination under the
folder-based key; on a successful probe, push a size mismatch when bytes
is truthy and differs from ContentLength, then increment verified
unconditionally; on NotFound increment missing and record the asset; on
any other probe error only log (no counter changes). -/
def verifyAsset (dest : String → HeadResult) (st : VerifyState)
    (r : Resource) : VerifyState :=
  let s3Key := verifyS3Key r.folder r.public_id r.format
  match dest s3Key with
  | .success contentLength =>
      let st1 :=
        if jsTruthyNat r.bytes && (contentLength != r.bytes.getD 0) then
          { st with sizeMismatches := st.sizeMismatches ++
              [{ public_id := r.public_id, cloudinary_size := r.bytes.getD 0,
                 s3_size := contentLength, s3_key := s3Key }] }
        else st
      { st1 with verified := st1.verified + 1 }
  | .notFound =>
      { st with
        missing := st.missing + 1
        missingAssets := st.missingAssets ++
          [{ public_id := r.public_id, format := r.format,
             expected_s3_key := s3Key }] }
  | .otherError _ => st

/-- MigrationVerifier.verifyBatch: counts and lists aggregate
commutatively, so the Promise.all of the original is modelled by a left
fold. -/
def verifyBatch (dest : String → HeadResult) (st : VerifyState)
    (rs : List Resource) : VerifyState :=
  rs.foldl (verifyAsset dest) st

/-- The success rate of printVerificationReport, in hundredths of a
percent: ((verified / total) * 100).toFixed(2) with total =
verified + missing, rounding to the nearest hundredth, and 0 when
total = 0. -/
def successRateCentis (verified missing : Nat) : Nat :=
  let total := verified + missing
  if 0 < total then (verified * 10000 * 2 + total) / (2 * total) else 0

/-- Source catalog entry A of the spec scenario: size 100, no folder. -/
def resA : Resource :=
  { public_id := "A", format := "png", bytes := some 100, folder := none,
    secure_url := none, url := none }

/-- Source catalog entry B of the spec scenario: size 999. -/
def resB : Resource :=
  { public_id := "B", format := "png", bytes := some 999, folder := none,
    secure_url := none, url := none }

/-- Source catalog entry C of the spec scenario: size 50. -/
def resC : Resource :=
  { public_id := "C", format := "png", bytes := some 50, folder := none,
    secure_url := none, url := none }

/-- Destination store of the spec scenario: it holds the objects for A
(100 bytes) and B (200 bytes) under the keys the verifier derives, and
nothing else. -/
def destAB : String → HeadResult := fun key =>
  if key = "A.png" then .success 100
  else if key = "B.png" then .success 200
  else .notFound

/-- An environment in which the destination reports nothing present, the
download succeeds and the S3 upload fails. -/
def envUploadFails : WorkerEnv :=
  { head := fun _ => .notFound, download := fun _ => .ok,
    uploadOk := fun _ => false }

/-- A resource with a delivery URL and no folder. -/
def resPlain : Resource :=
  { public_id := "a", format := "jpg", bytes := none, folder := none,
    secure_url := some "https://cdn.example/a.jpg", url := none }

/-- The default policy: skip existing files, no forced overwrite. -/
def policySkip : Policy := { skipExisting := true, forceOverwrite := false }

/-- A forced-overwrite policy. -/
def policyForce : Policy := { skipExisting := true, forceOverwrite := true }

/-- A resource whose bytes field is 0, hence falsy in the verifier. -/
def resZeroBytes : Resource :=
  { public_id := "z", format := "png", bytes := some 0, folder := none,
    secure_url := none, url := none }

/-- A destination on which every probe succeeds with 12345 bytes. -/
def destBig : String → HeadResult := fun _ => .success 12345

/-- First response page of the pagination stub, carrying a cursor. -/
def pageOne : CatalogPage := { resources := [], next_cursor := some "c2" }

/-- Second response page of the pagination stub, carrying a cursor. -/
def pageTwo : CatalogPage := { resources := [], next_cursor := some "c3" }

/-- Final response page of the pagination stub, carrying no cursor. -/
def pageLastNone : CatalogPage := { resources := [], next_cursor := none }

/-- C1 (counterexample): in the spec scenario (destination holds A with
100 bytes and B with 200 bytes; source lists A size 100, B size 999,
C size 50) the code does not report a success rate of 33.33 percent:
verifyAsset increments verified even for the size-mismatched B, so
verified = 2, missing = 1 and the rate is 66.67 percent. -/
theorem C1_success_rate_counterexample :
    ¬ (successRateCentis
        (verifyBatch destAB initVerifyState [resA, resB, resC]).verified
        (verifyBatch destAB initVerifyState [resA, resB, resC]).missing
        = 3333) := by
  decide

/-- C1 (amended): in the spec scenario, verification records A as plain
Verified, pushes SizeMismatch(999, 200) for B while still counting B as
verified, records C as Missing, and reports a success rate of 66.67
percent, computed as verified / (verified + missing) * 100 with
two-decimal rounding, where verified includes size-mismatched assets. -/
theorem C1_verification_scenario_amended :
    verifyAsset destAB initVerifyState resA =
      { verified := 1, missing := 0, missingAssets := [], sizeMismatches := [] } ∧
    verifyBatch destAB initVerifyState [resA, resB, resC] =
      { verified := 2, missing := 1,
        missingAssets :=
          [{ public_id := "C", format := "png", expected_s3_key := "C.png" }],
        sizeMismatches :=
          [{ public_id := "B", cloudinary_size := 999, s3_size := 200,
             s3_key := "B.png" }] } ∧
    successRateCentis
        (verifyBatch destAB initVerifyState [resA, resB, resC]).verified
        (verifyBatch destAB initVerifyState [resA, resB, resC]).missing
      = 6667 := by
  decide

/-- C2: the migration worker and the verifier do not agree on the
destination key. At the failing input public_id = "x", format = "jpg",
folder absent, migrateAsset persists under "cloudinary/x.jpg" while
verifyAsset probes "x.jpg"; the two derivations differ, contradicting the
comment in verifyAsset that claims the same logic as the migration
script. -/
theorem C2_target_key_divergence :
    migrationS3Key "x" "jpg" = "cloudinary/x.jpg" ∧
    verifyS3Key none "x" "jpg" = "x.jpg" ∧
    migrationS3Key "x" "jpg" ≠ verifyS3Key none "x" "jpg" := by
  decide

/-- C3 (counterexample): a concrete invocation that reaches the fetch step
and ends with a Failed outcome while its staging file is still in place:
with the destination reporting not-found, the download succeeding and the
S3 upload failing, migrateAsset terminates with the staging file
"a.jpg" left on disk, because fs.unlinkSync runs only after a successful
upload. -/
theorem C3_staging_leak_counterexample :
    (migrateAsset envUploadFails policySkip resPlain).outcome =
      .failed "store write error" ∧
    (migrateAsset envUploadFails policySkip resPlain).stagingLeft =
      some (localFileName "a" "jpg") := by
  decide

/-- C3 (amended): the staging file is not released on every exit path.
It is released on the success path, but when the destination store write
fails after the download fully staged the file, the invocation terminates
with a Failed outcome leaving its staging file in place: for every
environment, policy and resource, a Migrated outcome ends with no staging
file, while a completed download whose persist step failed ends with the
staging file still on disk. (A download that fails mid-write also leaves
a partial file behind; this theorem does not assert anything about that
path.) -/
theorem C3_staging_cleanup_amended (env : WorkerEnv) (p : Policy)
    (r : Resource) :
    ((migrateAsset env p r).outcome = .migrated →
      (migrateAsset env p r).stagingLeft = none) ∧
    ((migrateAsset env p r).downloaded = true ∧
        (migrateAsset env p r).persisted = false →
      (migrateAsset env p r).stagingLeft =
        some (localFileName r.public_id r.format)) := by
  unfold migrateAsset transferSteps
  dsimp only
  repeat' split
  all_goals simp

/-- Witness for C3 (amended) at a concrete invocation whose download
completes and whose S3 upload fails. -/
theorem C3_staging_cleanup_witness :
    ((migrateAsset envUploadFails policySkip resPlain).downloaded = true ∧
      (migrateAsset envUploadFails policySkip resPlain).persisted = false) ∧
    (migrateAsset envUploadFails policySkip resPlain).stagingLeft =
      some (localFileName resPlain.public_id resPlain.format) :=
  ⟨⟨rfl, rfl⟩,
    (C3_staging_cleanup_amended envUploadFails policySkip resPlain).2
      ⟨rfl, rfl⟩⟩

/-- C4: when forceOverwrite is true, migrateAsset never consults the
existence oracle (checkS3FileExists is not called) whatever the value of
skipExisting, the outcome is never Skipped, and whenever the resource
carries a delivery URL the worker proceeds to the fetch step. -/
theorem C4_force_overwrite_bypasses_check (env : WorkerEnv) (p : Policy)
    (r : Resource) (hf : p.forceOverwrite = true) :
    (migrateAsset env p r).oracleConsulted = false ∧
    (∀ reason, (migrateAsset env p r).outcome ≠ .skipped reason) ∧
    (jsTruthyStr (deliveryUrl r) = true →
      (migrateAsset env p r).fetchAttempted = true) := by
  unfold migrateAsset transferSteps
  rw [hf]
  dsimp only
  simp only [Bool.not_true, Bool.and_false, Bool.false_eq_true, if_false]
  repeat' split
  all_goals simp_all

/-- Witness for C4 at a concrete forced-overwrite invocation. -/
theorem C4_force_overwrite_witness :
    policyForce.forceOverwrite = true ∧
    (migrateAsset envUploadFails policyForce resPlain).oracleConsulted = false :=
  ⟨rfl,
    (C4_force_overwrite_bypasses_check envUploadFails policyForce resPlain
      rfl).1⟩

/-- C5: checkS3FileExists returns true exactly when the metadata probe
succeeded; a NotFound probe yields false with no warning; any other probe
error yields false together with a warning message; the function is total,
so the oracle never throws. -/
theorem C5_existence_oracle_conservative (probe : HeadResult) :
    ((checkS3FileExists probe).1 = true ↔ ∃ n, probe = .success n) ∧
    (∀ m, probe = .otherError m → checkS3FileExists probe = (false, [m])) ∧
    (probe = .notFound → checkS3FileExists probe = (false, [])) := by
  cases probe <;> simp [checkS3FileExists]

/-- Witness for C5 at a concrete non-NotFound probe error. -/
theorem C5_existence_oracle_witness :
    (HeadResult.otherError "network" = HeadResult.otherError "network") ∧
    checkS3FileExists (.otherError "network") = (false, ["network"]) :=
  ⟨rfl,
    (C5_existence_oracle_conservative (.otherError "network")).2.1 "network" rfl⟩

/-- C9: for a resource whose bytes field is absent or zero, a successful
destination probe makes verifyAsset record the asset as verified with no
size comparison: the state changes only by incrementing verified, and in
particular no SizeMismatch entry is ever pushed for such an asset. -/
theorem C9_falsy_bytes_skip_size_check (dest : String → HeadResult)
    (st : VerifyState) (r : Resource)
    (hb : r.bytes = none ∨ r.bytes = some 0) (n : Nat)
    (hd : dest (verifyS3Key r.folder r.public_id r.format) = .success n) :
    verifyAsset dest st r = { st with verified := st.verified + 1 } := by
  unfold verifyAsset
  rcases hb with h | h <;> simp [hd, h, jsTruthyNat]

/-- Witness for C9 at a concrete zero-byte resource and a destination
where the object exists with a different size. -/
theorem C9_falsy_bytes_witness :
    ((resZeroBytes.bytes = none ∨ resZeroBytes.bytes = some 0) ∧
      destBig (verifyS3Key resZeroBytes.folder resZeroBytes.public_id
        resZeroBytes.format) = .success 12345) ∧
    verifyAsset destBig initVerifyState resZeroBytes =
      { initVerifyState with verified := initVerifyState.verified + 1 } :=
  ⟨⟨Or.inr rfl, rfl⟩,
    C9_falsy_bytes_skip_size_check destBig initVerifyState resZeroBytes
      (Or.inr rfl) 12345 rfl⟩

/-- C10: the staging-file naming function is not injective even though the
TargetKey derivation is: the distinct identifiers "a/b" and "a_b" with the
same format collide on the staging path "a_b.jpg" while their S3 keys
differ. -/
theorem C10_staging_name_collision :
    localFileName "a/b" "jpg" = localFileName "a_b" "jpg" ∧
    ("a/b" : String) ≠ "a_b" ∧
    migrationS3Key "a/b" "jpg" ≠ migrationS3Key "a_b" "jpg" := by
  decide

/-- Each tallied outcome increments the migrated-skipped-failed sum by one
and leaves totalCount unchanged. -/
theorem tallyOutcome_sums (c : Counts) (o : Outcome) :
    (tallyOutcome c o).migratedCount + (tallyOutcome c o).skippedCount +
        (tallyOutcome c o).failedCount
      = c.migratedCount + c.skippedCount + c.failedCount + 1 ∧
    (tallyOutcome c o).totalCount = c.totalCount := by
  cases o <;> simp [tallyOutcome] <;> omega

/-- processBatch adds exactly the batch length to the
migrated-skipped-failed sum and leaves totalCount unchanged. -/
theorem processBatch_sums (env : WorkerEnv) (p : Policy) (rs : List Resource) :
    ∀ c : Counts,
      (processBatch env p c rs).migratedCount +
          (processBatch env p c rs).skippedCount +
          (processBatch env p c rs).failedCount
        = c.migratedCount + c.skippedCount + c.failedCount + rs.length ∧
      (processBatch env p c rs).totalCount = c.totalCount := by
  induction rs with
  | nil => intro c; simp [processBatch]
  | cons r rest ih =>
      intro c
      have h1 := tallyOutcome_sums c (migrateAsset env p r).outcome
      have h2 := ih (tallyOutcome c (migrateAsset env p r).outcome)
      simp only [processBatch, List.foldl_cons] at h2 ⊢
      simp only [List.length_cons]
      omega

/-- The batch loop preserves the aggregate-consistency invariant. -/
theorem runMigrationFrom_invariant (env : WorkerEnv) (p : Policy)
    (batches : List (List Resource)) :
    ∀ c : Counts,
      c.migratedCount + c.skippedCount + c.failedCount = c.totalCount →
      (runMigrationFrom env p c batches).migratedCount +
          (runMigrationFrom env p c batches).skippedCount +
          (runMigrationFrom env p c batches).failedCount
        = (runMigrationFrom env p c batches).totalCount := by
  induction batches with
  | nil => intro c h; simpa [runMigrationFrom] using h
  | cons b rest ih =>
      intro c h
      have hstep := processBatch_sums env p b
        { c with totalCount := c.totalCount + b.length }
      simp only [runMigrationFrom, List.foldl_cons] at ih ⊢
      refine ih _ ?_
      rcases hstep with ⟨hs, ht⟩
      dsimp only at hs ht
      omega

/-- C6: for every environment, policy and sequence of enumerated batches
(a run that ends on an enumeration error simply folds over the prefix of
batches fetched before the error), the final counters of the migration
run satisfy migrated + skipped + failed = totalCount, because every
enumerated resource is tallied into exactly one of the three counters. -/
theorem C6_aggregate_consistency (env : WorkerEnv) (p : Policy)
    (batches : List (List Resource)) :
    (runMigration env p batches).migratedCount +
        (runMigration env p batches).skippedCount +
        (runMigration env p batches).failedCount
      = (runMigration env p batches).totalCount :=
  runMigrationFrom_invariant env p batches initialCounts rfl

/-- The concatenation of the chunks is the original identifier list. -/
theorem chunk100_join {α : Type} (l : List α) : (chunk100 l).flatten = l := by
  induction l using chunk100.induct with
  | case1 => simp [chunk100]
  | case2 x xs ih =>
      rw [chunk100]
      simp only [List.flatten_cons, ih, List.take_append_drop]

/-- The number of chunks is the length of the list divided by 100,
rounded up. -/
theorem chunk100_length {α : Type} (l : List α) :
    (chunk100 l).length = (l.length + 99) / 100 := by
  induction l using chunk100.induct with
  | case1 => simp [chunk100]
  | case2 x xs ih =>
      rw [chunk100]
      simp only [List.length_cons, ih, List.length_drop] at ih ⊢
      omega

/-- Every chunk holds at most 100 identifiers. -/
theorem chunk100_chunk_le {α : Type} (l : List α) :
    ∀ c ∈ chunk100 l, c.length ≤ 100 := by
  induction l using chunk100.induct with
  | case1 => simp [chunk100]
  | case2 x xs ih =>
      rw [chunk100]
      intro c hc
      rcases List.mem_cons.mp hc with h | h
      · subst h
        simp [List.length_take]
      · exact ih c h

/-- Folding a counter over a list adds its length. -/
theorem foldl_count {β : Type} (bs : List β) :
    ∀ n : Nat, bs.foldl (fun m _ => m + 1) n = n + bs.length := by
  induction bs with
  | nil => intro n; simp
  | cons b rest ih =>
      intro n
      simp only [List.foldl_cons, List.length_cons, ih]
      omega

/-- One direct-lookup call is issued per chunk. -/
theorem lookupCalls_eq_chunks (ids : List String) :
    lookupCalls ids = (chunk100 ids).length := by
  unfold lookupCalls
  simpa using foldl_count (chunk100 ids) 0

/-- C7: for every non-empty explicit identifier list,
migrateByPublicIds partitions the list into ceil(n / 100) chunks (in
natural numbers, (n + 99) / 100), each chunk holds at most 100
identifiers, their concatenation in order is the original list, and the
loop issues exactly one resources_by_ids call per chunk. -/
theorem C7_explicit_list_chunking (ids : List String) (h : ids ≠ []) :
    (chunk100 ids).length = (ids.length + 99) / 100 ∧
    (∀ c ∈ chunk100 ids, c.length ≤ 100) ∧
    (chunk100 ids).flatten = ids ∧
    lookupCalls ids = (chunk100 ids).length :=
  ⟨chunk100_length ids, chunk100_chunk_le ids, chunk100_join ids,
    lookupCalls_eq_chunks ids⟩

/-- Witness for C7 at a concrete three-identifier list. -/
theorem C7_explicit_list_witness :
    (["a", "b", "c"] : List String) ≠ [] ∧
    ((chunk100 (["a", "b", "c"] : List String)).length =
        ((["a", "b", "c"] : List String).length + 99) / 100 ∧
      (∀ c ∈ chunk100 (["a", "b", "c"] : List String), c.length ≤ 100) ∧
      (chunk100 (["a", "b", "c"] : List String)).flatten = ["a", "b", "c"] ∧
      lookupCalls ["a", "b", "c"] =
        (chunk100 (["a", "b", "c"] : List String)).length) :=
  ⟨by decide, C7_explicit_list_chunking ["a", "b", "c"] (by decide)⟩

/-- C8: the pagination loop of migrate issues exactly as many catalog
requests as the stub has pages: when every response before the last
carries a truthy next_cursor and the last carries none, the number of
cloudinary.api.resources calls equals the number of pages, and then the
loop stops. -/
theorem C8_pagination_termination (front : List CatalogPage)
    (last : CatalogPage)
    (hfront : ∀ page ∈ front, jsTruthyStr page.next_cursor = true)
    (hlast : jsTruthyStr last.next_cursor = false) :
    paginationCalls (front ++ [last]) = (front ++ [last]).length := by
  induction front with
  | nil => simp [paginationCalls, hlast]
  | cons q rest ih =>
      have hq : jsTruthyStr q.next_cursor = true := hfront q (by simp)
      have hr := ih (fun page hp => hfront page (by simp [hp]))
      simp only [List.cons_append]
      show 1 + (if jsTruthyStr q.next_cursor then paginationCalls (rest ++ [last]) else 0)
          = (q :: (rest ++ [last])).length
      simp only [hq, if_true, hr, List.length_cons]
      omega

/-- Witness for C8: the spec stub of three pages, the first two carrying
cursors and the third carrying none, is exhausted in exactly 3 calls. -/
theorem C8_pagination_witness :
    (∀ page ∈ [pageOne, pageTwo], jsTruthyStr page.next_cursor = true) ∧
    jsTruthyStr pageLastNone.next_cursor = false ∧
    paginationCalls ([pageOne, pageTwo] ++ [pageLastNone]) = 3 :=
  ⟨by decide, by decide,
    C8_pagination_termination [pageOne, pageTwo] pageLastNone (by decide)
      (by decide)⟩

end CloudinaryMigrate
